import Mathlib

/-!
Shallow embedding of the football-stats-app repository (src/app.py and
src/pages/6_Export_to_MaxPreps.py): the roster model, the per-sport
event-derivation functions, the per-sport aggregation functions, and the
MaxPreps export serializer, together with theorems settling the spec claims.

Modelling conventions:
  - a pandas cell holding a sparse event attribute is a `CellVal`
    (`na` = NaN / absent column, `str`, or `num`, with Python floats
    idealized as rationals);
  - `pd.to_numeric(col, errors="coerce").fillna(0)` is `toNumCoerce`,
    and the following `.astype(int)` is `toIntCoerce` (truncation toward 0);
  - DataFrame row dictionaries become structures; a key that a given
    sport never writes is `CellVal.na` / `none` (pd.concat fills NaN);
  - `df.groupby("player_key")` iterates groups in sorted key order, which
    is `sortStrings (dedup keys)`; `sort_values(by=[last, first])` is a
    sort by the `(last_name, first_name)` lexicographic order.
-/

/-- A value stored in one cell of the event-log DataFrame: missing (NaN),
a string, or a number (Python int/float idealized as a rational). -/
inductive CellVal where
  | na : CellVal
  | str (s : String) : CellVal
  | num (q : ℚ) : CellVal
deriving DecidableEq

/-- Value of one decimal digit character. -/
def digitVal (c : Char) : Option Nat :=
  if c.isDigit then some (c.toNat - 48) else none

/-- Read a nonnegative integer from decimal digit characters; none on any
non-digit. The empty list reads as 0 (callers guard emptiness). -/
def digitsToNat (cs : List Char) : Option Nat :=
  cs.foldl
    (fun acc c =>
      match acc, digitVal c with
      | some n, some d => some (n * 10 + d)
      | _, _ => none)
    (some 0)

/-- ASCII whitespace, the characters `str.strip()` removes. -/
def isSpaceChar (c : Char) : Bool :=
  c == ' ' || c == '\t' || c == '\n' || c == '\r'

/-- Drop leading and trailing whitespace characters. -/
def trimChars (cs : List Char) : List Char :=
  ((cs.dropWhile isSpaceChar).reverse.dropWhile isSpaceChar).reverse

/-- Python `s.strip()`. -/
def pyStrip (s : String) : String := String.mk (trimChars s.toList)

/-- Lowercase one ASCII letter, the identity elsewhere. -/
def lowerChar (c : Char) : Char :=
  if 'A' ≤ c && c ≤ 'Z' then Char.ofNat (c.toNat + 32) else c

/-- Python `s.lower()` (ASCII model). -/
def pyLower (s : String) : String := String.mk (s.toList.map lowerChar)

/-- Unsigned decimal body of a numeric string: digits with an optional
fractional part. -/
def parseUnsigned (cs : List Char) : Option ℚ :=
  let intPart := cs.takeWhile (fun c => c ≠ '.')
  let rest := cs.dropWhile (fun c => c ≠ '.')
  match rest with
  | [] =>
      if intPart.isEmpty then none
      else (digitsToNat intPart).map (fun n => (n : ℚ))
  | _ :: frac =>
      if intPart.isEmpty && frac.isEmpty then none
      else
        match digitsToNat intPart, digitsToNat frac with
        | some n, some f =>
            some ((n : ℚ) + (f : ℚ) / (10 : ℚ) ^ frac.length)
        | _, _ => none

/-- Models the numeric-string parsing done by pandas `to_numeric`: optional
sign, decimal digits, optional fractional part. Returns none (NaN) when the
string is not numeric. -/
def parseNumeric (s : String) : Option ℚ :=
  match trimChars s.toList with
  | '-' :: body => (parseUnsigned body).map (fun q => -q)
  | '+' :: body => parseUnsigned body
  | body => parseUnsigned body

/-- Effect of `pd.to_numeric(col, errors="coerce").fillna(0)` on one cell: numbers
pass through, numeric strings parse, everything else becomes 0. -/
def toNumCoerce : CellVal → ℚ
  | .na => 0
  | .num q => q
  | .str s => (parseNumeric s).getD 0

/-- Truncation toward zero of a rational, as numpy `astype(int)` does. -/
def truncRat (q : ℚ) : ℤ := Int.tdiv q.num (q.den : ℤ)

/-- Effect of `pd.to_numeric(col, errors="coerce").fillna(0).astype(int)` on one cell. -/
def toIntCoerce (v : CellVal) : ℤ := truncRat (toNumCoerce v)

/-- True when a cell is missing or holds a string pandas cannot parse as a
number: exactly the cells the coercion policy sends to 0. -/
def isBadNum : CellVal → Bool
  | .na => true
  | .str s => (parseNumeric s).isNone
  | .num _ => false

/-- One roster row as produced by `read_roster_df`. -/
structure Player where
  player_key : String
  first_name : String
  last_name : String
  number : Option ℤ
  positions : String
deriving DecidableEq

/-- Lookup `roster.loc[roster["player_key"] == k].iloc[0]`: first roster row with
the given key, none when the selection is empty (pandas raises IndexError,
which the callers either catch or propagate). -/
def findPlayer (roster : List Player) (k : String) : Option Player :=
  roster.find? (fun p => p.player_key == k)

/-- One committed stat event: a row of the in-memory event log. Keys a
sport never writes are `na`/`none`. -/
structure Event where
  timestamp : String
  sport : String
  player_key : String
  first_name : String
  last_name : String
  number : Option ℤ
  positions : String
  side : String
  stat_type : String
  outcome : Option String
  yards : CellVal
  touchdown : CellVal
  on_target : CellVal
  goal : CellVal
  card : Option String
  penalty_minutes : CellVal
  minutes : CellVal
  notes : String
deriving DecidableEq

/-- Value of `int(yards) if yards is not None else None` landing in a DataFrame cell. -/
def optIntCell : Option ℤ → CellVal
  | some n => .num (n : ℚ)
  | none => .na

/-- An optional float such as `penalty_minutes` landing in a DataFrame cell. -/
def optRatCell : Option ℚ → CellVal
  | some q => .num q
  | none => .na

/-- The state of one Football "Log a Stat" submission: the chosen widgets
plus the paired-reception session keys. -/
structure FbSubmission where
  player_key : String
  side : String
  stat_type : String
  outcome : Option String
  yards : Option ℤ
  touchdown_val : ℤ
  pair_reception : Bool
  receiver : Option String
  notes : String
  timestamp : String
deriving DecidableEq

/-- The `base_row` built by `FootballSpec.build_form` on submit. -/
def fbBaseRow (s : FbSubmission) (pr : Player) : Event :=
  { timestamp := s.timestamp, sport := "Football", player_key := s.player_key,
    first_name := pr.first_name, last_name := pr.last_name, number := pr.number,
    positions := pr.positions, side := s.side, stat_type := "", outcome := none,
    yards := .na, touchdown := .na, on_target := .na, goal := .na, card := none,
    penalty_minutes := .na, minutes := .na, notes := pyStrip s.notes }

/-- The `new_rows` computed by `FootballSpec.build_form` when submitted:
the primary row, plus a paired Reception when the completed pass asks for
one and the receiver resolves in the roster. `none` models the uncaught
IndexError when the submitting player is not in the roster. -/
def fbDerive (roster : List Player) (s : FbSubmission) : Option (List Event) :=
  match findPlayer roster s.player_key with
  | none => none
  | some pr =>
    let base := fbBaseRow s pr
    let primary := { base with
      stat_type := s.stat_type, outcome := s.outcome,
      yards := optIntCell s.yards,
      touchdown := .num (s.touchdown_val : ℚ) }
    let rows := [primary]
    if s.side == "Offense" && s.stat_type == "Pass" && s.outcome == some "Complete"
        && s.pair_reception then
      match s.receiver.bind (findPlayer roster) with
      | some rcv =>
          some (rows ++ [{ base with
            player_key := rcv.player_key, first_name := rcv.first_name,
            last_name := rcv.last_name, number := rcv.number,
            positions := rcv.positions, side := "Offense",
            stat_type := "Reception", outcome := none,
            yards := optIntCell s.yards,
            touchdown := .num (s.touchdown_val : ℚ) }])
      | none => some rows
    else some rows

/-- The state of one Soccer "Log a Stat" submission. -/
structure ScSubmission where
  player_key : String
  stat_type : String
  on_target : Option Bool
  goal : ℤ
  outcome : Option String
  receiver : Option String
  resulted_goal : Bool
  card : String
  notes : String
  timestamp : String
deriving DecidableEq

/-- The `base_row` built by `SoccerSpec.build_form` on submit. -/
def scBaseRow (s : ScSubmission) (pr : Player) : Event :=
  { timestamp := s.timestamp, sport := "Soccer", player_key := s.player_key,
    first_name := pr.first_name, last_name := pr.last_name, number := pr.number,
    positions := pr.positions, side := "All", stat_type := "", outcome := none,
    yards := .na, touchdown := .na, on_target := .na, goal := .na, card := none,
    penalty_minutes := .na, minutes := .na, notes := pyStrip s.notes }

/-- The `new_rows` computed by `SoccerSpec.build_form` when submitted: the
primary row, plus (for a completed pass to a distinct, truthy recipient
flagged as resulting in a goal) an Assist for the passer and, when the
recipient resolves in the roster, a Shot(on_target=1, goal=1) for them. -/
def scDerive (roster : List Player) (s : ScSubmission) : Option (List Event) :=
  match findPlayer roster s.player_key with
  | none => none
  | some pr =>
    let base := scBaseRow s pr
    if s.stat_type == "Shot" then
      some [{ base with
        stat_type := "Shot",
        on_target := match s.on_target with
          | some b => .num (if b then 1 else 0)
          | none => .na,
        goal := .num (s.goal : ℚ) }]
    else if s.stat_type == "Pass" then
      let rows := [{ base with stat_type := "Pass", outcome := s.outcome }]
      let recvOK := match s.receiver with
        | some r => r != "" && r != s.player_key
        | none => false
      if s.outcome == some "Complete" && recvOK then
        if s.resulted_goal then
          let rows := rows ++ [{ base with stat_type := "Assist" }]
          match s.receiver.bind (findPlayer roster) with
          | some rcv =>
              some (rows ++ [{ base with
                player_key := rcv.player_key, first_name := rcv.first_name,
                last_name := rcv.last_name, number := rcv.number,
                positions := rcv.positions, stat_type := "Shot",
                on_target := .num 1, goal := .num 1 }])
          | none => some rows
        else some rows
      else some rows
    else if s.stat_type == "Tackle" || s.stat_type == "Interception"
        || s.stat_type == "Save" then
      some [{ base with stat_type := s.stat_type }]
    else if s.stat_type == "Foul" then
      some [{ base with stat_type := "Foul", card := some s.card }]
    else some []

/-- The state of one Lacrosse "Log a Stat" submission. -/
structure LcSubmission where
  player_key : String
  stat_type : String
  assist : Option String
  on_target : Option Bool
  faceoff_result : Option String
  penalty_minutes : Option ℚ
  minutes : Option ℚ
  notes : String
  timestamp : String
deriving DecidableEq

/-- The `base` row built by `LacrosseSpec.build_form` on submit. -/
def lcBaseRow (s : LcSubmission) (pr : Player) : Event :=
  { timestamp := s.timestamp, sport := "Lacrosse", player_key := s.player_key,
    first_name := pr.first_name, last_name := pr.last_name, number := pr.number,
    positions := pr.positions, side := "All", stat_type := "", outcome := none,
    yards := .na, touchdown := .na, on_target := .na, goal := .na, card := none,
    penalty_minutes := .na, minutes := .na, notes := pyStrip s.notes }

/-- The `new_rows` computed by `LacrosseSpec.build_form` when submitted: a
Goal always adds a Shot(on_target=1) for the scorer and, when an assist key
other than "None" resolves in the roster, an Assist for that player. -/
def lcDerive (roster : List Player) (s : LcSubmission) : Option (List Event) :=
  match findPlayer roster s.player_key with
  | none => none
  | some pr =>
    let base := lcBaseRow s pr
    if s.stat_type == "Goal" then
      let rows := [{ base with stat_type := "Goal", goal := .num 1 },
                   { base with stat_type := "Shot", on_target := .num 1 }]
      let assistOK := match s.assist with
        | some a => a != "" && a != "None"
        | none => false
      if assistOK then
        match s.assist.bind (findPlayer roster) with
        | some ap =>
            some (rows ++ [{ base with
              player_key := ap.player_key, first_name := ap.first_name,
              last_name := ap.last_name, number := ap.number,
              positions := ap.positions, stat_type := "Assist" }])
        | none => some rows
      else some rows
    else if s.stat_type == "Assist" then
      some [{ base with stat_type := "Assist" }]
    else if s.stat_type == "Shot" then
      match s.on_target with
      | some b => some [{ base with
          stat_type := "Shot", on_target := .num (if b then 1 else 0) }]
      | none => none
    else if s.stat_type == "Ground Ball" then
      some [{ base with stat_type := "Ground Ball" }]
    else if s.stat_type == "Faceoff" then
      some [{ base with stat_type := "Faceoff", outcome := s.faceoff_result }]
    else if s.stat_type == "Takeaway" || s.stat_type == "Interception"
        || s.stat_type == "Turnover" || s.stat_type == "Save"
        || s.stat_type == "Goal Allowed" then
      some [{ base with stat_type := s.stat_type }]
    else if s.stat_type == "Penalty" then
      some [{ base with
        stat_type := "Penalty", penalty_minutes := optRatCell s.penalty_minutes }]
    else if s.stat_type == "Goalie Minutes" then
      some [{ base with
        stat_type := "Goalie Minutes", minutes := optRatCell s.minutes }]
    else some []

/-- Insert an element into a list, in front of the first element it is
`le`-below: the step of a stable insertion sort. -/
def insertBy (le : α → α → Bool) (a : α) : List α → List α
  | [] => [a]
  | b :: bs => if le a b then a :: b :: bs else b :: insertBy le a bs

/-- Stable insertion sort, the deterministic model of the sorts pandas
performs (`groupby` key order, `sort_values`). -/
def sortBy (le : α → α → Bool) (l : List α) : List α :=
  l.foldr (insertBy le) []

/-- Sort strings ascending, as `groupby` sorts its keys. -/
def sortStrings (l : List String) : List String :=
  sortBy (fun a b => decide (a ≤ b)) l

/-- The shared shape of every `aggregate_totals` body after the sport
filter and column coercion: empty in, empty out; otherwise one row per
distinct player key (keys in ascending order, as `groupby` yields them),
then a final sort of the rows. -/
def aggCore (keyOf : β → String) (build : String → List β → ρ)
    (le : ρ → ρ → Bool) (df : List β) : List ρ :=
  if df.isEmpty then []
  else
    sortBy le ((sortStrings ((df.map keyOf).dedup)).map
      (fun k => build k (df.filter (fun b => keyOf b == k))))

/-- A Football event after `aggregate_totals` coerces the yards and
touchdown columns to integers. -/
structure FbEvent where
  player_key : String
  first_name : String
  last_name : String
  number : Option ℤ
  positions : String
  stat_type : String
  outcome : Option String
  yards : ℤ
  touchdown : ℤ
deriving DecidableEq

/-- Column coercion performed at the top of `FootballSpec.aggregate_totals`. -/
def fbNormalize (e : Event) : FbEvent :=
  { player_key := e.player_key, first_name := e.first_name,
    last_name := e.last_name, number := e.number, positions := e.positions,
    stat_type := e.stat_type, outcome := e.outcome,
    yards := toIntCoerce e.yards, touchdown := toIntCoerce e.touchdown }

/-- One row of the Football totals table; field names follow the column
labels of `FootballSpec.aggregate_totals`. -/
structure FootballRow where
  player_key : String
  first_name : String
  last_name : String
  number : Option ℤ
  positions : String
  receptions : ℤ
  receiving_yards : ℤ
  receiving_tds : ℤ
  rush_attempts : ℤ
  rushing_yards : ℤ
  rushing_tds : ℤ
  punts : ℤ
  punt_yards : ℤ
  fumbles : ℤ
  pass_attempts : ℤ
  pass_completions : ℤ
  pass_yards : ℤ
  passing_tds : ℤ
  fg_attempts : ℤ
  fg_made : ℤ
  fg_attempt_yards : ℤ
  forced_fumbles : ℤ
  sacks : ℤ
  interceptions : ℤ
  tackles : ℤ
  return_yards : ℤ
  defensive_tds : ℤ
  touchdowns_total : ℤ
deriving DecidableEq

/-- The totals row `FootballSpec.aggregate_totals` builds for one
`groupby` group `grp` under key `k`. -/
def fbRow (k : String) (grp : List FbEvent) : FootballRow :=
  { player_key := k,
    first_name := (grp.head?.map (fun e => e.first_name)).getD "",
    last_name := (grp.head?.map (fun e => e.last_name)).getD "",
    number := (grp.head?.map (fun e => e.number)).getD none,
    positions := (grp.head?.map (fun e => e.positions)).getD "",
    receptions := grp.countP (fun e => e.stat_type == "Reception"),
    receiving_yards :=
      ((grp.filter (fun e => e.stat_type == "Reception")).map (fun e => e.yards)).sum,
    receiving_tds :=
      grp.countP (fun e => e.stat_type == "Reception" && e.touchdown == 1),
    rush_attempts := grp.countP (fun e => e.stat_type == "Run"),
    rushing_yards :=
      ((grp.filter (fun e => e.stat_type == "Run")).map (fun e => e.yards)).sum,
    rushing_tds := grp.countP (fun e => e.stat_type == "Run" && e.touchdown == 1),
    punts := grp.countP (fun e => e.stat_type == "Punt"),
    punt_yards :=
      ((grp.filter (fun e => e.stat_type == "Punt")).map (fun e => e.yards)).sum,
    fumbles := grp.countP (fun e => e.stat_type == "Fumble"),
    pass_attempts := (grp.filter (fun e => e.stat_type == "Pass")).length,
    pass_completions :=
      (grp.filter (fun e => e.stat_type == "Pass")).countP
        (fun e => e.outcome == some "Complete"),
    pass_yards :=
      (((grp.filter (fun e => e.stat_type == "Pass")).filter
        (fun e => e.outcome == some "Complete")).map (fun e => e.yards)).sum,
    passing_tds :=
      (grp.filter (fun e => e.stat_type == "Pass")).countP
        (fun e => e.outcome == some "Complete" && e.touchdown == 1),
    fg_attempts := (grp.filter (fun e => e.stat_type == "Field Goal")).length,
    fg_made :=
      (grp.filter (fun e => e.stat_type == "Field Goal")).countP
        (fun e => e.outcome == some "Made"),
    fg_attempt_yards :=
      ((grp.filter (fun e => e.stat_type == "Field Goal")).map (fun e => e.yards)).sum,
    forced_fumbles := grp.countP (fun e => e.stat_type == "Forced Fumble"),
    sacks := grp.countP (fun e => e.stat_type == "Sack"),
    interceptions := grp.countP (fun e => e.stat_type == "Interception"),
    tackles := grp.countP (fun e => e.stat_type == "Tackle"),
    return_yards :=
      ((grp.filter (fun e => e.stat_type == "Return")).map (fun e => e.yards)).sum,
    defensive_tds :=
      grp.countP (fun e =>
        (e.stat_type == "Interception" || e.stat_type == "Return") && e.touchdown == 1),
    touchdowns_total :=
      (grp.countP (fun e => e.stat_type == "Reception" && e.touchdown == 1) : ℤ) +
      (grp.countP (fun e => e.stat_type == "Run" && e.touchdown == 1) : ℤ) +
      ((grp.filter (fun e => e.stat_type == "Pass")).countP
        (fun e => e.outcome == some "Complete" && e.touchdown == 1) : ℤ) +
      (grp.countP (fun e =>
        (e.stat_type == "Interception" || e.stat_type == "Return") && e.touchdown == 1) : ℤ) }

/-- The `sort_values(by=["last_name", "first_name"])` order on Football rows. -/
def fbRowLe (a b : FootballRow) : Bool :=
  decide (a.last_name < b.last_name ∨
    (a.last_name = b.last_name ∧ a.first_name ≤ b.first_name))

/-- Embedding of `FootballSpec.aggregate_totals`: filter to Football events, coerce the
numeric columns, group by player key, build one totals row per player,
sort by name. -/
def footballAggregateTotals (logs : List Event) : List FootballRow :=
  aggCore (fun e => e.player_key) fbRow fbRowLe
    ((logs.filter (fun e => e.sport == "Football")).map fbNormalize)

/-- A Soccer event after `aggregate_totals` coerces the on_target and goal
columns to integers and fills the card column with "None". -/
structure ScEvent where
  player_key : String
  first_name : String
  last_name : String
  number : Option ℤ
  positions : String
  stat_type : String
  outcome : Option String
  on_target : ℤ
  goal : ℤ
  card : String
deriving DecidableEq

/-- Column coercion performed at the top of `SoccerSpec.aggregate_totals`. -/
def scNormalize (e : Event) : ScEvent :=
  { player_key := e.player_key, first_name := e.first_name,
    last_name := e.last_name, number := e.number, positions := e.positions,
    stat_type := e.stat_type, outcome := e.outcome,
    on_target := toIntCoerce e.on_target, goal := toIntCoerce e.goal,
    card := e.card.getD "None" }

/-- One row of the Soccer totals table. -/
structure SoccerRow where
  player_key : String
  first_name : String
  last_name : String
  number : Option ℤ
  positions : String
  shots : ℤ
  shots_on_target : ℤ
  goals : ℤ
  passes_attempted : ℤ
  passes_completed : ℤ
  assists : ℤ
  tackles : ℤ
  interceptions : ℤ
  saves : ℤ
  fouls : ℤ
  yellow_cards : ℤ
  red_cards : ℤ
  pass_completion_pct : ℚ
deriving DecidableEq

/-- Round a rational to the nearest integer, ties to even: the rounding of
Python `round`. -/
def roundHalfEvenInt (q : ℚ) : ℤ :=
  let f := ⌊q⌋
  let r := q - (f : ℚ)
  if r < 1 / 2 then f
  else if 1 / 2 < r then f + 1
  else if f % 2 = 0 then f else f + 1

/-- Python `round(x, 1)` on the rational idealization of a float. -/
def round1 (q : ℚ) : ℚ := ((roundHalfEvenInt (q * 10) : ℚ)) / 10

/-- Python `round(x, 2)` on the rational idealization of a float. -/
def round2 (q : ℚ) : ℚ := ((roundHalfEvenInt (q * 100) : ℚ)) / 100

/-- The totals row `SoccerSpec.aggregate_totals` builds for one group. -/
def scRow (k : String) (grp : List ScEvent) : SoccerRow :=
  { player_key := k,
    first_name := (grp.head?.map (fun e => e.first_name)).getD "",
    last_name := (grp.head?.map (fun e => e.last_name)).getD "",
    number := (grp.head?.map (fun e => e.number)).getD none,
    positions := (grp.head?.map (fun e => e.positions)).getD "",
    shots := grp.countP (fun e => e.stat_type == "Shot"),
    shots_on_target :=
      ((grp.filter (fun e => e.stat_type == "Shot")).map (fun e => e.on_target)).sum,
    goals := ((grp.filter (fun e => e.stat_type == "Shot")).map (fun e => e.goal)).sum,
    passes_attempted := (grp.filter (fun e => e.stat_type == "Pass")).length,
    passes_completed :=
      (grp.filter (fun e => e.stat_type == "Pass")).countP
        (fun e => e.outcome == some "Complete"),
    assists := grp.countP (fun e => e.stat_type == "Assist"),
    tackles := grp.countP (fun e => e.stat_type == "Tackle"),
    interceptions := grp.countP (fun e => e.stat_type == "Interception"),
    saves := grp.countP (fun e => e.stat_type == "Save"),
    fouls := (grp.filter (fun e => e.stat_type == "Foul")).length,
    yellow_cards :=
      (grp.filter (fun e => e.stat_type == "Foul")).countP (fun e => e.card == "Yellow"),
    red_cards :=
      (grp.filter (fun e => e.stat_type == "Foul")).countP (fun e => e.card == "Red"),
    pass_completion_pct :=
      if ((grp.filter (fun e => e.stat_type == "Pass")).length : ℤ) = 0 then 0
      else
        round1 (100 * ((grp.filter (fun e => e.stat_type == "Pass")).countP
            (fun e => e.outcome == some "Complete") : ℚ) /
          ((grp.filter (fun e => e.stat_type == "Pass")).length : ℚ)) }

/-- The `sort_values(by=["last_name", "first_name"])` order on Soccer rows. -/
def scRowLe (a b : SoccerRow) : Bool :=
  decide (a.last_name < b.last_name ∨
    (a.last_name = b.last_name ∧ a.first_name ≤ b.first_name))

/-- Embedding of `SoccerSpec.aggregate_totals`. -/
def soccerAggregateTotals (logs : List Event) : List SoccerRow :=
  aggCore (fun e => e.player_key) scRow scRowLe
    ((logs.filter (fun e => e.sport == "Soccer")).map scNormalize)

/-- A Lacrosse event after `aggregate_totals` coerces the on_target,
penalty_minutes and minutes columns. -/
structure LcEvent where
  player_key : String
  first_name : String
  last_name : String
  number : Option ℤ
  positions : String
  stat_type : String
  outcome : Option String
  on_target : ℤ
  penalty_minutes : ℚ
  minutes : ℚ
deriving DecidableEq

/-- Column coercion performed at the top of `LacrosseSpec.aggregate_totals`. -/
def lcNormalize (e : Event) : LcEvent :=
  { player_key := e.player_key, first_name := e.first_name,
    last_name := e.last_name, number := e.number, positions := e.positions,
    stat_type := e.stat_type, outcome := e.outcome,
    on_target := toIntCoerce e.on_target,
    penalty_minutes := toNumCoerce e.penalty_minutes,
    minutes := toNumCoerce e.minutes }

/-- One row of the Lacrosse totals table. -/
structure LacrosseRow where
  player_key : String
  first_name : String
  last_name : String
  number : Option ℤ
  positions : String
  goals : ℤ
  shots : ℤ
  shots_on_goal : ℤ
  assists : ℤ
  points : ℤ
  ground_balls : ℤ
  faceoffs_attempted : ℤ
  faceoffs_won : ℤ
  faceoff_pct : ℚ
  takeaways : ℤ
  interceptions : ℤ
  caused_turnovers : ℤ
  turnovers : ℤ
  penalties : ℤ
  penalty_minutes : ℚ
  saves : ℤ
  goals_allowed : ℤ
  minutes : ℚ
  shots_on_goal_faced : ℤ
  save_pct : ℚ
  gaa : ℚ
  shooting_pct : ℚ
  sog_rate_pct : ℚ
deriving DecidableEq

/-- The totals row `LacrosseSpec.aggregate_totals` builds for one group. -/
def lcRow (k : String) (grp : List LcEvent) : LacrosseRow :=
  { player_key := k,
    first_name := (grp.head?.map (fun e => e.first_name)).getD "",
    last_name := (grp.head?.map (fun e => e.last_name)).getD "",
    number := (grp.head?.map (fun e => e.number)).getD none,
    positions := (grp.head?.map (fun e => e.positions)).getD "",
    goals := grp.countP (fun e => e.stat_type == "Goal"),
    shots := (grp.filter (fun e => e.stat_type == "Shot")).length,
    shots_on_goal :=
      ((grp.filter (fun e => e.stat_type == "Shot")).map (fun e => e.on_target)).sum,
    assists := grp.countP (fun e => e.stat_type == "Assist"),
    points := (grp.countP (fun e => e.stat_type == "Goal") : ℤ) +
      (grp.countP (fun e => e.stat_type == "Assist") : ℤ),
    ground_balls := grp.countP (fun e => e.stat_type == "Ground Ball"),
    faceoffs_attempted := (grp.filter (fun e => e.stat_type == "Faceoff")).length,
    faceoffs_won :=
      (grp.filter (fun e => e.stat_type == "Faceoff")).countP
        (fun e => e.outcome == some "Win"),
    faceoff_pct :=
      if ((grp.filter (fun e => e.stat_type == "Faceoff")).length : ℤ) = 0 then 0
      else
        round1 (100 * ((grp.filter (fun e => e.stat_type == "Faceoff")).countP
            (fun e => e.outcome == some "Win") : ℚ) /
          ((grp.filter (fun e => e.stat_type == "Faceoff")).length : ℚ)),
    takeaways := grp.countP (fun e => e.stat_type == "Takeaway"),
    interceptions := grp.countP (fun e => e.stat_type == "Interception"),
    caused_turnovers := (grp.countP (fun e => e.stat_type == "Takeaway") : ℤ) +
      (grp.countP (fun e => e.stat_type == "Interception") : ℤ),
    turnovers := grp.countP (fun e => e.stat_type == "Turnover"),
    penalties := (grp.filter (fun e => e.stat_type == "Penalty")).length,
    penalty_minutes :=
      if (grp.filter (fun e => e.stat_type == "Penalty")).isEmpty then 0
      else ((grp.filter (fun e => e.stat_type == "Penalty")).map
        (fun e => e.penalty_minutes)).sum,
    saves := grp.countP (fun e => e.stat_type == "Save"),
    goals_allowed := grp.countP (fun e => e.stat_type == "Goal Allowed"),
    minutes :=
      ((grp.filter (fun e => e.stat_type == "Goalie Minutes")).map
        (fun e => e.minutes)).sum,
    shots_on_goal_faced := (grp.countP (fun e => e.stat_type == "Save") : ℤ) +
      (grp.countP (fun e => e.stat_type == "Goal Allowed") : ℤ),
    save_pct :=
      if (grp.countP (fun e => e.stat_type == "Save") : ℤ) +
          (grp.countP (fun e => e.stat_type == "Goal Allowed") : ℤ) = 0 then 0
      else
        round1 (100 * (grp.countP (fun e => e.stat_type == "Save") : ℚ) /
          (((grp.countP (fun e => e.stat_type == "Save") : ℤ) +
            (grp.countP (fun e => e.stat_type == "Goal Allowed") : ℤ) : ℤ) : ℚ)),
    gaa :=
      if 0 < ((grp.filter (fun e => e.stat_type == "Goalie Minutes")).map
          (fun e => e.minutes)).sum then
        round2 ((grp.countP (fun e => e.stat_type == "Goal Allowed") : ℚ) * 48 /
          ((grp.filter (fun e => e.stat_type == "Goalie Minutes")).map
            (fun e => e.minutes)).sum)
      else 0,
    shooting_pct :=
      if ((grp.filter (fun e => e.stat_type == "Shot")).map
          (fun e => e.on_target)).sum = 0 then 0
      else
        round1 (100 * (grp.countP (fun e => e.stat_type == "Goal") : ℚ) /
          ((((grp.filter (fun e => e.stat_type == "Shot")).map
            (fun e => e.on_target)).sum : ℤ) : ℚ)),
    sog_rate_pct :=
      if ((grp.filter (fun e => e.stat_type == "Shot")).length : ℤ) = 0 then 0
      else
        round1 (100 * ((((grp.filter (fun e => e.stat_type == "Shot")).map
            (fun e => e.on_target)).sum : ℤ) : ℚ) /
          ((grp.filter (fun e => e.stat_type == "Shot")).length : ℚ)) }

/-- The `sort_values(by=["last_name", "first_name"])` order on Lacrosse rows. -/
def lcRowLe (a b : LacrosseRow) : Bool :=
  decide (a.last_name < b.last_name ∨
    (a.last_name = b.last_name ∧ a.first_name ≤ b.first_name))

/-- Embedding of `LacrosseSpec.aggregate_totals`. -/
def lacrosseAggregateTotals (logs : List Event) : List LacrosseRow :=
  aggCore (fun e => e.player_key) lcRow lcRowLe
    ((logs.filter (fun e => e.sport == "Lacrosse")).map lcNormalize)

/-- Embedding of `SportSpec.aggregate_totals`, the base-class stub: an empty DataFrame
for every input log. `BaseballSpec` and `BasketballSpec` inherit it. -/
def sportSpecAggregateTotals (_logs : List Event) : List (List (String × CellVal)) :=
  []

/-- Baseball aggregation is the inherited stub. -/
def baseballAggregateTotals : List Event → List (List (String × CellVal)) :=
  sportSpecAggregateTotals

/-- Basketball aggregation is the inherited stub. -/
def basketballAggregateTotals : List Event → List (List (String × CellVal)) :=
  sportSpecAggregateTotals

/-- A totals table loaded for export: column names plus rows of cells
(a pandas DataFrame). Row lookup of a column absent from a row yields NaN. -/
structure Table where
  cols : List String
  rows : List (List (String × CellVal))
deriving DecidableEq

/-- Cell access `row[c]` for one export row. -/
def rowGet (r : List (String × CellVal)) (c : String) : CellVal :=
  (List.lookup c r).getD .na

/-- Python `sep.join(parts)`. -/
def pyJoin (sep : String) : List String → String
  | [] => ""
  | [a] => a
  | a :: b :: rest => a ++ sep ++ pyJoin sep (b :: rest)

/-- Fractional decimal digits of a rational in `[0, 1)`, most significant
first, stopping at zero or after the fuel runs out. -/
def fracDigitChars : Nat → ℚ → List Char
  | 0, _ => []
  | n + 1, q =>
      if q = 0 then []
      else
        let d := ⌊q * 10⌋
        Char.ofNat (48 + d.toNat) :: fracDigitChars n (q * 10 - (d : ℚ))

/-- Models Python `str()` of a non-integer float: sign, integer part,
decimal point, fractional digits. IEEE floats have finite decimal
expansions; 20 digits bound the repr CPython prints. -/
def pyFloatStr (q : ℚ) : String :=
  let sgn := if q < 0 then "-" else ""
  let a := |q|
  let ip := ⌊a⌋
  sgn ++ toString ip ++ "." ++ String.mk (fracDigitChars 20 (a - (ip : ℚ)))

/-- Embedding of `coerce_str_no_nan`: NaN becomes "", strings are stripped, whole
numbers drop the decimal point (`str(int(float(x)))`), other numbers print
as floats. -/
def coerce_str_no_nan : CellVal → String
  | .na => ""
  | .str s => pyStrip s
  | .num q => if q.den = 1 then toString q.num else pyFloatStr q

/-- Embedding of `resolve_column_name_case_insensitive`: the first DataFrame column
whose stripped lowercase form matches, else the name unchanged. -/
def resolveColumnNameCI (cols : List String) (name : String) : String :=
  match cols.find? (fun c => pyLower (pyStrip c) == pyLower (pyStrip name)) with
  | some c => c
  | none => name

/-- The `MAXPREPS_FIELDS` ordering constant. -/
def MAXPREPS_FIELDS : List String :=
  ["Jersey", "RushingNum", "RushingYards", "RushingLong", "ReceivingNum",
   "ReceivingYards", "ReceivingLong", "PassingComp", "PassingAtt",
   "PassingInt", "PassingYards", "PassingTD", "PassingLong",
   "OffensiveFumbles", "OffensiveFumblesLost", "PancakeBlocks", "Tackles",
   "Assists", "TotalTackles", "TacklesForLoss", "Sacks", "SacksYardsLost",
   "QBHurries", "INTs", "INTYards", "PassesDefensed", "BlockedPunts",
   "BlockedFG", "FumbleRecoveries", "FumbleRecoveryYards", "CausedFumbles",
   "PuntReturnNum", "PuntReturnYards", "PuntReturnLong",
   "PuntReturnFairCatches", "KickoffReturnNum", "KickoffReturnYards",
   "KickoffReturnLong", "TotalReturnYards", "PuntNum", "PuntYards",
   "PuntLong", "PuntInside20", "KickoffNum", "KickoffYards", "KickoffLong",
   "KickoffTouchbacks", "Touchdowns", "RushingTDNum", "ReceivingTDNum",
   "FumbleReturnedTDNum", "IntReturnedTDNum", "PuntReturnedTDNum",
   "KickoffReturnedTDNum", "TotalTDNum", "PATKickingMade", "PATKickingAtt",
   "PATKickingPoints", "PATRushingNum", "PATReceivingNum",
   "TotalConversionPoints", "FGMade", "FGAttempted", "FGLong", "Safeties",
   "TotalPoints"]

/-- Test `not pd.isna(v) and str(v).strip() != ""` for one cell. -/
def cellHasContent : CellVal → Bool
  | .na => false
  | .str s => pyStrip s != ""
  | .num _ => true

/-- Embedding of `choose_fields_to_include`: mapped fields whose sheet column exists
and has some content, ordered by `MAXPREPS_FIELDS` with unlisted extras
appended in mapping order. -/
def choose_fields_to_include (df : Table) (field_map : List (String × String)) :
    List String :=
  let included := (field_map.filter (fun p =>
    p.2 != "Jersey" && df.cols.contains p.1 &&
      df.rows.any (fun r => cellHasContent (rowGet r p.1)))).map (fun p => p.2)
  let order := MAXPREPS_FIELDS.filter (fun f => f != "Jersey")
  let included_sorted := order.filter (fun f => included.contains f)
  let extras := included.filter (fun f => ! included_sorted.contains f)
  included_sorted ++ extras

/-- Python `d[k] = v` on an insertion-ordered dict held as a list of
pairs: replace in place when the key exists, else append. -/
def dictSet (d : List (String × String)) (k v : String) : List (String × String) :=
  if d.any (fun p => p.1 == k) then
    d.map (fun p => if p.1 == k then (k, v) else p)
  else d ++ [(k, v)]

/-- The `reverse_map` built by `build_maxpreps_txt`: MaxPreps field →
sheet column, resolving mapping keys case-insensitively. -/
def buildReverseMap (cols : List String) (field_map : List (String × String)) :
    List (String × String) :=
  field_map.foldl
    (fun rm p =>
      if cols.contains p.1 then dictSet rm p.2 p.1
      else
        let resolved := resolveColumnNameCI cols p.1
        if cols.contains resolved then dictSet rm p.2 resolved else rm)
    []

/-- The per-row loop of `build_maxpreps_txt`: skip rows with a blank
jersey, emit `jersey|field|...|field`, and drop rows whose non-jersey
values are all empty. -/
def exportDataLines (rm : List (String × String)) (included : List String)
    (jcol : String) : List (List (String × CellVal)) → List String
  | [] => []
  | r :: rs =>
      let rest := exportDataLines rm included jcol rs
      let jersey_val := coerce_str_no_nan (rowGet r jcol)
      if jersey_val = "" then rest
      else
        let values := jersey_val :: included.map (fun f =>
          match List.lookup f rm with
          | some c => coerce_str_no_nan (rowGet r c)
          | none => "")
        if values.tail.any (fun v => v != "") then pyJoin "|" values :: rest
        else rest

/-- The hard-coded MaxPreps Stat Supplier ID. -/
def supplierId : String := "669ae75f-4563-494a-8c17-370aaa8539d4"

/-- Embedding of `build_maxpreps_txt`: supplier line, header line, then one line per
kept player row, newline-joined with a trailing newline. `Except.error`
models the ValueError on an unresolvable jersey column. -/
def build_maxpreps_txt (df : Table) (field_map : List (String × String))
    (jersey_column_name : String) : Except String String :=
  let jres := resolveColumnNameCI df.cols jersey_column_name
  if df.cols.contains jres then
    let reverse_map := buildReverseMap df.cols field_map
    let included_fields := choose_fields_to_include df field_map
    let header_fields := "Jersey" :: included_fields
    let lines := supplierId :: pyJoin "|" header_fields ::
      exportDataLines reverse_map included_fields jres df.rows
    .ok (pyJoin "\n" lines ++ "\n")
  else .error ("Missing required jersey column: " ++ jersey_column_name)

/-- The Football events of one player in a log, coerced per the numeric
policy: the domain over which the spec states its per-player formulas. -/
def fbPlayerEvents (logs : List Event) (k : String) : List FbEvent :=
  ((logs.filter (fun e => e.sport == "Football")).map fbNormalize).filter
    (fun e => e.player_key == k)

/-- Spec formula: FG Attempt Yards (Total) = sum(yards | "Field Goal"),
regardless of outcome. -/
def specFGAttemptYards (logs : List Event) (k : String) : ℤ :=
  (((fbPlayerEvents logs k).filter (fun e => e.stat_type == "Field Goal")).map
    (fun e => e.yards)).sum

/-- Spec formula: Defensive TDs = count(stat_type in Interception/Return
and touchdown = 1). -/
def specDefensiveTDs (logs : List Event) (k : String) : ℤ :=
  ((fbPlayerEvents logs k).filter (fun e =>
    (e.stat_type == "Interception" || e.stat_type == "Return") &&
      e.touchdown == 1)).length

/-- Spec formula: Receiving TDs = count("Reception" and touchdown = 1). -/
def specReceivingTDs (logs : List Event) (k : String) : ℤ :=
  ((fbPlayerEvents logs k).filter (fun e =>
    e.stat_type == "Reception" && e.touchdown == 1)).length

/-- Spec formula: Rushing TDs = count("Run" and touchdown = 1). -/
def specRushingTDs (logs : List Event) (k : String) : ℤ :=
  ((fbPlayerEvents logs k).filter (fun e =>
    e.stat_type == "Run" && e.touchdown == 1)).length

/-- Spec formula: Pass Yards = sum(yards | "Pass" and outcome "Complete"). -/
def specPassYards (logs : List Event) (k : String) : ℤ :=
  (((fbPlayerEvents logs k).filter (fun e =>
    e.stat_type == "Pass" && e.outcome == some "Complete")).map
      (fun e => e.yards)).sum

/-- Spec formula: Passing TDs = count("Pass" and outcome "Complete" and
touchdown = 1). -/
def specPassingTDs (logs : List Event) (k : String) : ℤ :=
  ((fbPlayerEvents logs k).filter (fun e =>
    e.stat_type == "Pass" && e.outcome == some "Complete" &&
      e.touchdown == 1)).length

/-- All events of a log that share a player key agree on the identity
columns: the precondition under which grouping is order-blind. -/
def idAgree (logs : List Event) : Prop :=
  ∀ a ∈ logs, ∀ b ∈ logs, a.player_key = b.player_key →
    a.first_name = b.first_name ∧ a.last_name = b.last_name ∧
      a.number = b.number ∧ a.positions = b.positions

theorem insertBy_perm (le : α → α → Bool) (a : α) (l : List α) :
    List.Perm (insertBy le a l) (a :: l) := by
  induction l with
  | nil => simp [insertBy]
  | cons b bs ih =>
    simp only [insertBy]
    split
    · exact List.Perm.refl _
    · exact (ih.cons b).trans (List.Perm.swap a b bs)

theorem sortBy_perm (le : α → α → Bool) (l : List α) :
    List.Perm (sortBy le l) l := by
  induction l with
  | nil => simp [sortBy]
  | cons a as ih =>
    simp only [sortBy, List.foldr_cons]
    exact (insertBy_perm le a _).trans (ih.cons a)

theorem mem_sortBy {le : α → α → Bool} {a : α} {l : List α} :
    a ∈ sortBy le l ↔ a ∈ l :=
  (sortBy_perm le l).mem_iff

theorem sorted_insertBy_str (a : String) (l : List String)
    (h : l.Sorted (fun x y => x ≤ y)) :
    (insertBy (fun x y => decide (x ≤ y)) a l).Sorted (fun x y => x ≤ y) := by
  induction l with
  | nil => simp [insertBy]
  | cons b bs ih =>
    rw [List.sorted_cons] at h
    simp only [insertBy]
    split
    · rename_i hab
      have hab' : a ≤ b := of_decide_eq_true hab
      refine List.sorted_cons.mpr ⟨?_, List.sorted_cons.mpr h⟩
      intro c hc
      rcases List.mem_cons.mp hc with rfl | hc
      · exact hab'
      · exact le_trans hab' (h.1 c hc)
    · rename_i hab
      have hba : b ≤ a := le_of_not_le (fun hh => hab (decide_eq_true hh))
      refine List.sorted_cons.mpr ⟨?_, ih h.2⟩
      intro c hc
      rcases List.mem_cons.mp ((insertBy_perm _ a bs).mem_iff.mp hc) with rfl | hc
      · exact hba
      · exact h.1 c hc

theorem sorted_sortStrings (l : List String) :
    (sortStrings l).Sorted (fun a b => a ≤ b) := by
  induction l with
  | nil => simp [sortStrings, sortBy]
  | cons a as ih =>
    simp only [sortStrings, sortBy, List.foldr_cons] at ih ⊢
    exact sorted_insertBy_str a _ ih

theorem sortStrings_eq_of_perm {l₁ l₂ : List String} (h : List.Perm l₁ l₂) :
    sortStrings l₁ = sortStrings l₂ :=
  List.eq_of_perm_of_sorted
    (((sortBy_perm _ l₁).trans h).trans (sortBy_perm _ l₂).symm)
    (sorted_sortStrings l₁) (sorted_sortStrings l₂)

theorem aggCore_eq_of_perm {β ρ : Type} (keyOf : β → String)
    (build : String → List β → ρ) (le : ρ → ρ → Bool) {df₁ df₂ : List β}
    (hp : List.Perm df₁ df₂)
    (hb : ∀ k, build k (df₁.filter (fun b => keyOf b == k))
             = build k (df₂.filter (fun b => keyOf b == k))) :
    aggCore keyOf build le df₁ = aggCore keyOf build le df₂ := by
  have hlen := hp.length_eq
  have hemp : df₁.isEmpty = df₂.isEmpty := by
    cases df₁ <;> cases df₂ <;> simp_all
  have hkeys : sortStrings ((df₁.map keyOf).dedup)
      = sortStrings ((df₂.map keyOf).dedup) :=
    sortStrings_eq_of_perm ((hp.map keyOf).dedup)
  unfold aggCore
  rw [hemp, hkeys]
  congr 1
  exact congrArg (sortBy le) (List.map_congr_left (fun k _ => hb k))

theorem fbRow_eq_of_perm (k : String) {g₁ g₂ : List FbEvent}
    (hp : List.Perm g₁ g₂)
    (hid : ∀ a ∈ g₁, ∀ b ∈ g₁,
      a.first_name = b.first_name ∧ a.last_name = b.last_name ∧
        a.number = b.number ∧ a.positions = b.positions) :
    fbRow k g₁ = fbRow k g₂ := by
  obtain ⟨h1, h2, h3, h4⟩ :
      g₁.head?.map (fun e => e.first_name) = g₂.head?.map (fun e => e.first_name) ∧
      g₁.head?.map (fun e => e.last_name) = g₂.head?.map (fun e => e.last_name) ∧
      g₁.head?.map (fun e => e.number) = g₂.head?.map (fun e => e.number) ∧
      g₁.head?.map (fun e => e.positions) = g₂.head?.map (fun e => e.positions) := by
    cases g₁ with
    | nil =>
      rw [← hp.nil_eq]
      exact ⟨rfl, rfl, rfl, rfl⟩
    | cons a as =>
      cases g₂ with
      | nil => exact absurd hp.length_eq (by simp)
      | cons b bs =>
        obtain ⟨e1, e2, e3, e4⟩ :=
          hid a (List.mem_cons_self a as) b (hp.mem_iff.mpr (List.mem_cons_self b bs))
        simp [e1, e2, e3, e4]
  have hcnt : ∀ p : FbEvent → Bool, g₁.countP p = g₂.countP p :=
    fun p => hp.countP_eq p
  have hflen : ∀ p : FbEvent → Bool, (g₁.filter p).length = (g₂.filter p).length :=
    fun p => (hp.filter p).length_eq
  have hfcnt : ∀ p q : FbEvent → Bool,
      (g₁.filter p).countP q = (g₂.filter p).countP q :=
    fun p q => (hp.filter p).countP_eq q
  have hsum : ∀ (p : FbEvent → Bool) (f : FbEvent → ℤ),
      ((g₁.filter p).map f).sum = ((g₂.filter p).map f).sum :=
    fun p f => (((hp.filter p).map f).sum_eq)
  have hsum2 : ∀ (p q : FbEvent → Bool) (f : FbEvent → ℤ),
      (((g₁.filter p).filter q).map f).sum = (((g₂.filter p).filter q).map f).sum :=
    fun p q f => ((((hp.filter p).filter q).map f).sum_eq)
  simp only [fbRow, h1, h2, h3, h4, hcnt, hflen, hfcnt, hsum, hsum2]

theorem scRow_eq_of_perm (k : String) {g₁ g₂ : List ScEvent}
    (hp : List.Perm g₁ g₂)
    (hid : ∀ a ∈ g₁, ∀ b ∈ g₁,
      a.first_name = b.first_name ∧ a.last_name = b.last_name ∧
        a.number = b.number ∧ a.positions = b.positions) :
    scRow k g₁ = scRow k g₂ := by
  obtain ⟨h1, h2, h3, h4⟩ :
      g₁.head?.map (fun e => e.first_name) = g₂.head?.map (fun e => e.first_name) ∧
      g₁.head?.map (fun e => e.last_name) = g₂.head?.map (fun e => e.last_name) ∧
      g₁.head?.map (fun e => e.number) = g₂.head?.map (fun e => e.number) ∧
      g₁.head?.map (fun e => e.positions) = g₂.head?.map (fun e => e.positions) := by
    cases g₁ with
    | nil =>
      rw [← hp.nil_eq]
      exact ⟨rfl, rfl, rfl, rfl⟩
    | cons a as =>
      cases g₂ with
      | nil => exact absurd hp.length_eq (by simp)
      | cons b bs =>
        obtain ⟨e1, e2, e3, e4⟩ :=
          hid a (List.mem_cons_self a as) b (hp.mem_iff.mpr (List.mem_cons_self b bs))
        simp [e1, e2, e3, e4]
  have hcnt : ∀ p : ScEvent → Bool, g₁.countP p = g₂.countP p :=
    fun p => hp.countP_eq p
  have hflen : ∀ p : ScEvent → Bool, (g₁.filter p).length = (g₂.filter p).length :=
    fun p => (hp.filter p).length_eq
  have hfcnt : ∀ p q : ScEvent → Bool,
      (g₁.filter p).countP q = (g₂.filter p).countP q :=
    fun p q => (hp.filter p).countP_eq q
  have hsum : ∀ (p : ScEvent → Bool) (f : ScEvent → ℤ),
      ((g₁.filter p).map f).sum = ((g₂.filter p).map f).sum :=
    fun p f => (((hp.filter p).map f).sum_eq)
  simp only [scRow, h1, h2, h3, h4, hcnt, hflen, hfcnt, hsum]

theorem lcRow_eq_of_perm (k : String) {g₁ g₂ : List LcEvent}
    (hp : List.Perm g₁ g₂)
    (hid : ∀ a ∈ g₁, ∀ b ∈ g₁,
      a.first_name = b.first_name ∧ a.last_name = b.last_name ∧
        a.number = b.number ∧ a.positions = b.positions) :
    lcRow k g₁ = lcRow k g₂ := by
  obtain ⟨h1, h2, h3, h4⟩ :
      g₁.head?.map (fun e => e.first_name) = g₂.head?.map (fun e => e.first_name) ∧
      g₁.head?.map (fun e => e.last_name) = g₂.head?.map (fun e => e.last_name) ∧
      g₁.head?.map (fun e => e.number) = g₂.head?.map (fun e => e.number) ∧
      g₁.head?.map (fun e => e.positions) = g₂.head?.map (fun e => e.positions) := by
    cases g₁ with
    | nil =>
      rw [← hp.nil_eq]
      exact ⟨rfl, rfl, rfl, rfl⟩
    | cons a as =>
      cases g₂ with
      | nil => exact absurd hp.length_eq (by simp)
      | cons b bs =>
        obtain ⟨e1, e2, e3, e4⟩ :=
          hid a (List.mem_cons_self a as) b (hp.mem_iff.mpr (List.mem_cons_self b bs))
        simp [e1, e2, e3, e4]
  have hcnt : ∀ p : LcEvent → Bool, g₁.countP p = g₂.countP p :=
    fun p => hp.countP_eq p
  have hflen : ∀ p : LcEvent → Bool, (g₁.filter p).length = (g₂.filter p).length :=
    fun p => (hp.filter p).length_eq
  have hfcnt : ∀ p q : LcEvent → Bool,
      (g₁.filter p).countP q = (g₂.filter p).countP q :=
    fun p q => (hp.filter p).countP_eq q
  have hsumz : ∀ (p : LcEvent → Bool) (f : LcEvent → ℤ),
      ((g₁.filter p).map f).sum = ((g₂.filter p).map f).sum :=
    fun p f => (((hp.filter p).map f).sum_eq)
  have hsumq : ∀ (p : LcEvent → Bool) (f : LcEvent → ℚ),
      ((g₁.filter p).map f).sum = ((g₂.filter p).map f).sum :=
    fun p f => (((hp.filter p).map f).sum_eq)
  have hfemp : ∀ p : LcEvent → Bool, (g₁.filter p).isEmpty = (g₂.filter p).isEmpty := by
    intro p
    have hl := (hp.filter p).length_eq
    cases hc1 : g₁.filter p <;> cases hc2 : g₂.filter p <;> simp_all
  simp only [lcRow, h1, h2, h3, h4, hcnt, hflen, hfcnt, hsumz, hsumq, hfemp]

theorem footballAgg_eq_of_perm {l₁ l₂ : List Event} (hp : List.Perm l₁ l₂)
    (hid : idAgree l₁) :
    footballAggregateTotals l₁ = footballAggregateTotals l₂ := by
  unfold footballAggregateTotals
  refine aggCore_eq_of_perm _ _ _
    ((hp.filter (fun e => e.sport == "Football")).map fbNormalize) ?_
  intro k
  refine fbRow_eq_of_perm k
    (((hp.filter (fun e => e.sport == "Football")).map fbNormalize).filter
      (fun b => b.player_key == k)) ?_
  intro a ha b hb
  obtain ⟨ha', _⟩ := List.mem_filter.mp ha
  obtain ⟨ea, hea, haeq⟩ := List.mem_map.mp ha'
  obtain ⟨hb', _⟩ := List.mem_filter.mp hb
  obtain ⟨eb, heb, hbeq⟩ := List.mem_map.mp hb'
  have hea' : ea ∈ l₁ := (List.mem_filter.mp hea).1
  have heb' : eb ∈ l₁ := (List.mem_filter.mp heb).1
  have hkey : ea.player_key = eb.player_key := by
    have hka : a.player_key = ea.player_key := by rw [← haeq]; rfl
    have hkb : b.player_key = eb.player_key := by rw [← hbeq]; rfl
    have h1 : (a.player_key == k) = true := (List.mem_filter.mp ha).2
    have h2 : (b.player_key == k) = true := (List.mem_filter.mp hb).2
    rw [← hka, ← hkb, beq_iff_eq.mp h1, beq_iff_eq.mp h2]
  obtain ⟨f1, f2, f3, f4⟩ := hid ea hea' eb heb' hkey
  subst haeq
  subst hbeq
  exact ⟨f1, f2, f3, f4⟩

theorem soccerAgg_eq_of_perm {l₁ l₂ : List Event} (hp : List.Perm l₁ l₂)
    (hid : idAgree l₁) :
    soccerAggregateTotals l₁ = soccerAggregateTotals l₂ := by
  unfold soccerAggregateTotals
  refine aggCore_eq_of_perm _ _ _
    ((hp.filter (fun e => e.sport == "Soccer")).map scNormalize) ?_
  intro k
  refine scRow_eq_of_perm k
    (((hp.filter (fun e => e.sport == "Soccer")).map scNormalize).filter
      (fun b => b.player_key == k)) ?_
  intro a ha b hb
  obtain ⟨ha', _⟩ := List.mem_filter.mp ha
  obtain ⟨ea, hea, haeq⟩ := List.mem_map.mp ha'
  obtain ⟨hb', _⟩ := List.mem_filter.mp hb
  obtain ⟨eb, heb, hbeq⟩ := List.mem_map.mp hb'
  have hea' : ea ∈ l₁ := (List.mem_filter.mp hea).1
  have heb' : eb ∈ l₁ := (List.mem_filter.mp heb).1
  have hkey : ea.player_key = eb.player_key := by
    have hka : a.player_key = ea.player_key := by rw [← haeq]; rfl
    have hkb : b.player_key = eb.player_key := by rw [← hbeq]; rfl
    have h1 : (a.player_key == k) = true := (List.mem_filter.mp ha).2
    have h2 : (b.player_key == k) = true := (List.mem_filter.mp hb).2
    rw [← hka, ← hkb, beq_iff_eq.mp h1, beq_iff_eq.mp h2]
  obtain ⟨f1, f2, f3, f4⟩ := hid ea hea' eb heb' hkey
  subst haeq
  subst hbeq
  exact ⟨f1, f2, f3, f4⟩

theorem lacrosseAgg_eq_of_perm {l₁ l₂ : List Event} (hp : List.Perm l₁ l₂)
    (hid : idAgree l₁) :
    lacrosseAggregateTotals l₁ = lacrosseAggregateTotals l₂ := by
  unfold lacrosseAggregateTotals
  refine aggCore_eq_of_perm _ _ _
    ((hp.filter (fun e => e.sport == "Lacrosse")).map lcNormalize) ?_
  intro k
  refine lcRow_eq_of_perm k
    (((hp.filter (fun e => e.sport == "Lacrosse")).map lcNormalize).filter
      (fun b => b.player_key == k)) ?_
  intro a ha b hb
  obtain ⟨ha', _⟩ := List.mem_filter.mp ha
  obtain ⟨ea, hea, haeq⟩ := List.mem_map.mp ha'
  obtain ⟨hb', _⟩ := List.mem_filter.mp hb
  obtain ⟨eb, heb, hbeq⟩ := List.mem_map.mp hb'
  have hea' : ea ∈ l₁ := (List.mem_filter.mp hea).1
  have heb' : eb ∈ l₁ := (List.mem_filter.mp heb).1
  have hkey : ea.player_key = eb.player_key := by
    have hka : a.player_key = ea.player_key := by rw [← haeq]; rfl
    have hkb : b.player_key = eb.player_key := by rw [← hbeq]; rfl
    have h1 : (a.player_key == k) = true := (List.mem_filter.mp ha).2
    have h2 : (b.player_key == k) = true := (List.mem_filter.mp hb).2
    rw [← hka, ← hkb, beq_iff_eq.mp h1, beq_iff_eq.mp h2]
  obtain ⟨f1, f2, f3, f4⟩ := hid ea hea' eb heb' hkey
  subst haeq
  subst hbeq
  exact ⟨f1, f2, f3, f4⟩

theorem mem_aggCore {β ρ : Type} {keyOf : β → String} {build : String → List β → ρ}
    {le : ρ → ρ → Bool} {df : List β} {r : ρ} (h : r ∈ aggCore keyOf build le df) :
    ∃ k, r = build k (df.filter (fun b => keyOf b == k)) := by
  unfold aggCore at h
  split at h
  · simp at h
  · obtain ⟨k, _, hk⟩ := List.mem_map.mp (mem_sortBy.mp h)
    exact ⟨k, hk.symm⟩

theorem toNumCoerce_eq_zero_of_bad {v : CellVal} (h : isBadNum v = true) :
    toNumCoerce v = 0 := by
  cases v with
  | na => rfl
  | num q => simp [isBadNum] at h
  | str s =>
    simp only [isBadNum, Option.isNone_iff_eq_none] at h
    simp [toNumCoerce, h]

theorem toIntCoerce_eq_zero_of_bad {v : CellVal} (h : isBadNum v = true) :
    toIntCoerce v = 0 := by
  unfold toIntCoerce
  rw [toNumCoerce_eq_zero_of_bad h]
  decide

/-- Replace every unparseable or missing numeric attribute of an event by
a literal numeric 0: what the spec says coercion amounts to. -/
def coerceBadToZero (e : Event) : Event :=
  { e with
    yards := if isBadNum e.yards then .num 0 else e.yards,
    touchdown := if isBadNum e.touchdown then .num 0 else e.touchdown,
    on_target := if isBadNum e.on_target then .num 0 else e.on_target,
    goal := if isBadNum e.goal then .num 0 else e.goal,
    penalty_minutes := if isBadNum e.penalty_minutes then .num 0 else e.penalty_minutes,
    minutes := if isBadNum e.minutes then .num 0 else e.minutes }

theorem toNumCoerce_replaceBad (v : CellVal) :
    toNumCoerce (if isBadNum v then .num 0 else v) = toNumCoerce v := by
  cases hb : isBadNum v
  · simp
  · simp only [if_pos rfl, toNumCoerce_eq_zero_of_bad hb]
    rfl

theorem toIntCoerce_replaceBad (v : CellVal) :
    toIntCoerce (if isBadNum v then .num 0 else v) = toIntCoerce v := by
  unfold toIntCoerce
  rw [toNumCoerce_replaceBad]

theorem filterMap_middle_subst {β : Type} (p : Event → Bool) (norm : Event → β)
    (e e' : Event) (hp : p e = p e') (hn : norm e = norm e') (l₁ l₂ : List Event) :
    ((l₁ ++ e :: l₂).filter p).map norm = ((l₁ ++ e' :: l₂).filter p).map norm := by
  simp only [List.filter_append, List.filter_cons]
  rw [← hp]
  cases hpe : p e
  · simp
  · simp [hn]

theorem fbNormalize_coerceBad (e : Event) :
    fbNormalize (coerceBadToZero e) = fbNormalize e := by
  simp [fbNormalize, coerceBadToZero, toIntCoerce_replaceBad]

theorem scNormalize_coerceBad (e : Event) :
    scNormalize (coerceBadToZero e) = scNormalize e := by
  simp [scNormalize, coerceBadToZero, toIntCoerce_replaceBad]

theorem lcNormalize_coerceBad (e : Event) :
    lcNormalize (coerceBadToZero e) = lcNormalize e := by
  simp [lcNormalize, coerceBadToZero, toIntCoerce_replaceBad, toNumCoerce_replaceBad]

/-- C1: Football derivation — for every submission with stat_type "Pass",
outcome "Complete", pairing enabled, and a receiver selected from the
roster (distinct from the passer, as the receiver option list excludes the
passer), `derive` returns exactly 2 events: a Pass event for the passer
and a Reception event for the receiver, both carrying the same yards value
and the same touchdown flag. -/
theorem C1_football_completed_pass_pairs_reception
    (roster : List Player) (s : FbSubmission) (pr rcv : Player) (r : String)
    (hpr : findPlayer roster s.player_key = some pr)
    (hside : s.side = "Offense")
    (hstat : s.stat_type = "Pass")
    (hout : s.outcome = some "Complete")
    (hpair : s.pair_reception = true)
    (hrecv : s.receiver = some r)
    (hr_in : findPlayer roster r = some rcv)
    (_hne : r ≠ s.player_key) :
    ∃ p q : Event, fbDerive roster s = some [p, q] ∧
      p.stat_type = "Pass" ∧ p.player_key = s.player_key ∧
      q.stat_type = "Reception" ∧ q.player_key = r ∧
      p.yards = q.yards ∧ p.touchdown = q.touchdown := by
  have hrkey : rcv.player_key = r := by
    have h := List.find?_some hr_in
    exact beq_iff_eq.mp h
  simp only [fbDerive, hpr, hside, hstat, hout, hpair, hrecv, Option.some_bind,
    hr_in, beq_self_eq_true, Bool.and_self, Bool.and_true, if_true]
  exact ⟨_, _, rfl, rfl, rfl, rfl, hrkey, rfl, rfl⟩

/-- A two-player roster used to instantiate theorems with hypotheses. -/
def rosterW : List Player :=
  [{ player_key := "#1 Al Ace", first_name := "Al", last_name := "Ace",
     number := some 1, positions := "QB" },
   { player_key := "#2 Bo Bay", first_name := "Bo", last_name := "Bay",
     number := some 2, positions := "WR" }]

/-- First player of the concrete roster. -/
def playerW1 : Player :=
  { player_key := "#1 Al Ace", first_name := "Al", last_name := "Ace",
    number := some 1, positions := "QB" }

/-- Second player of the concrete roster. -/
def playerW2 : Player :=
  { player_key := "#2 Bo Bay", first_name := "Bo", last_name := "Bay",
    number := some 2, positions := "WR" }

/-- A concrete completed-pass Football submission with pairing enabled. -/
def fbSubW : FbSubmission :=
  { player_key := "#1 Al Ace", side := "Offense", stat_type := "Pass",
    outcome := some "Complete", yards := some 20, touchdown_val := 1,
    pair_reception := true, receiver := some "#2 Bo Bay", notes := "",
    timestamp := "t0" }

/-- Witness: C1 applied to the concrete roster and submission. -/
theorem C1_witness :
    ∃ p q : Event, fbDerive rosterW fbSubW = some [p, q] ∧
      p.stat_type = "Pass" ∧ p.player_key = fbSubW.player_key ∧
      q.stat_type = "Reception" ∧ q.player_key = "#2 Bo Bay" ∧
      p.yards = q.yards ∧ p.touchdown = q.touchdown :=
  C1_football_completed_pass_pairs_reception rosterW fbSubW playerW1 playerW2
    "#2 Bo Bay" (by decide) rfl rfl rfl rfl rfl (by decide) (by decide)

/-- C2: Soccer derivation — for every completed-pass submission with a
roster recipient distinct from the passer and the resulted-in-goal flag
set, `derive` returns exactly 3 events: Pass for the passer, Assist for
the passer, and Shot for the recipient with on_target = 1 and goal = 1. -/
theorem C2_soccer_goal_pass_derives_assist_and_shot
    (roster : List Player) (s : ScSubmission) (pr rcv : Player) (r : String)
    (hpr : findPlayer roster s.player_key = some pr)
    (hstat : s.stat_type = "Pass")
    (hout : s.outcome = some "Complete")
    (hrecv : s.receiver = some r)
    (hblank : r ≠ "")
    (hne : r ≠ s.player_key)
    (hr_in : findPlayer roster r = some rcv)
    (hgoal : s.resulted_goal = true) :
    ∃ p a sh : Event, scDerive roster s = some [p, a, sh] ∧
      p.stat_type = "Pass" ∧ p.player_key = s.player_key ∧
      a.stat_type = "Assist" ∧ a.player_key = s.player_key ∧
      sh.stat_type = "Shot" ∧ sh.player_key = r ∧
      sh.on_target = CellVal.num 1 ∧ sh.goal = CellVal.num 1 := by
  have hrkey : rcv.player_key = r := by
    have h := List.find?_some hr_in
    exact beq_iff_eq.mp h
  have h1 : (r != "") = true := bne_iff_ne.mpr hblank
  have h2 : (r != s.player_key) = true := bne_iff_ne.mpr hne
  simp only [scDerive, hpr, hstat, hout, hrecv, hgoal, h1, h2, Option.some_bind,
    hr_in, beq_self_eq_true, Bool.and_self, Bool.and_true, Bool.true_and, if_true]
  norm_num
  exact ⟨_, _, _, rfl, rfl, rfl, rfl, rfl, rfl, hrkey, rfl, rfl⟩

/-- A concrete completed-pass Soccer submission flagged as a goal. -/
def scSubW : ScSubmission :=
  { player_key := "#1 Al Ace", stat_type := "Pass", on_target := none,
    goal := 0, outcome := some "Complete", receiver := some "#2 Bo Bay",
    resulted_goal := true, card := "None", notes := "", timestamp := "t0" }

/-- Witness: C2 applied to the concrete roster and submission. -/
theorem C2_witness :
    ∃ p a sh : Event, scDerive rosterW scSubW = some [p, a, sh] ∧
      p.stat_type = "Pass" ∧ p.player_key = scSubW.player_key ∧
      a.stat_type = "Assist" ∧ a.player_key = scSubW.player_key ∧
      sh.stat_type = "Shot" ∧ sh.player_key = "#2 Bo Bay" ∧
      sh.on_target = CellVal.num 1 ∧ sh.goal = CellVal.num 1 :=
  C2_soccer_goal_pass_derives_assist_and_shot rosterW scSubW playerW1 playerW2
    "#2 Bo Bay" (by decide) rfl rfl rfl (by decide) (by decide) (by decide) rfl

/-- C10: Soccer derivation with an unresolvable recipient — for every
completed-pass submission flagged as resulting in a goal whose recipient
key is nonempty, distinct from the passer, and absent from the roster,
`derive` still returns the passer's Assist along with the primary Pass:
exactly 2 events, only the recipient's Shot is dropped. -/
theorem C10_soccer_unresolved_recipient_keeps_assist
    (roster : List Player) (s : ScSubmission) (pr : Player) (r : String)
    (hpr : findPlayer roster s.player_key = some pr)
    (hstat : s.stat_type = "Pass")
    (hout : s.outcome = some "Complete")
    (hrecv : s.receiver = some r)
    (hblank : r ≠ "")
    (hne : r ≠ s.player_key)
    (hr_out : findPlayer roster r = none)
    (hgoal : s.resulted_goal = true) :
    ∃ p a : Event, scDerive roster s = some [p, a] ∧
      p.stat_type = "Pass" ∧ p.player_key = s.player_key ∧
      a.stat_type = "Assist" ∧ a.player_key = s.player_key := by
  have h1 : (r != "") = true := bne_iff_ne.mpr hblank
  have h2 : (r != s.player_key) = true := bne_iff_ne.mpr hne
  simp only [scDerive, hpr, hstat, hout, hrecv, hgoal, h1, h2, Option.some_bind,
    hr_out, beq_self_eq_true, Bool.and_self, Bool.and_true, Bool.true_and, if_true]
  norm_num
  exact ⟨_, _, rfl, rfl, rfl, rfl, rfl⟩

/-- A completed-pass Soccer submission whose recipient key resolves to
nobody in the roster. -/
def scSubW2 : ScSubmission :=
  { player_key := "#1 Al Ace", stat_type := "Pass", on_target := none,
    goal := 0, outcome := some "Complete", receiver := some "#9 Cy Cel",
    resulted_goal := true, card := "None", notes := "", timestamp := "t0" }

/-- Witness: C10 applied to the concrete roster and a ghost recipient. -/
theorem C10_witness :
    ∃ p a : Event, scDerive rosterW scSubW2 = some [p, a] ∧
      p.stat_type = "Pass" ∧ p.player_key = scSubW2.player_key ∧
      a.stat_type = "Assist" ∧ a.player_key = scSubW2.player_key :=
  C10_soccer_unresolved_recipient_keeps_assist rosterW scSubW2 playerW1
    "#9 Cy Cel" (by decide) rfl rfl rfl (by decide) (by decide) (by decide) rfl

/-- C3: Lacrosse Goal expansion — a Goal naming a resolvable assisting
player (distinct from the scorer) derives exactly 3 events (Goal and
Shot(on_target=1) for the scorer, Assist for the assister); a Goal with
assist "None" derives exactly 2 events and no Assist event. -/
theorem C3_lacrosse_goal_expansion
    (roster : List Player) (s : LcSubmission) (pr : Player)
    (hpr : findPlayer roster s.player_key = some pr)
    (hstat : s.stat_type = "Goal") :
    (∀ a ap, s.assist = some a → a ≠ "" → a ≠ "None" → a ≠ s.player_key →
      findPlayer roster a = some ap →
      ∃ g sh asr : Event, lcDerive roster s = some [g, sh, asr] ∧
        g.stat_type = "Goal" ∧ g.player_key = s.player_key ∧
        sh.stat_type = "Shot" ∧ sh.player_key = s.player_key ∧
        sh.on_target = CellVal.num 1 ∧
        asr.stat_type = "Assist" ∧ asr.player_key = a) ∧
    (s.assist = some "None" →
      ∃ g sh : Event, lcDerive roster s = some [g, sh] ∧
        g.stat_type = "Goal" ∧ g.player_key = s.player_key ∧
        sh.stat_type = "Shot" ∧ sh.player_key = s.player_key ∧
        sh.on_target = CellVal.num 1 ∧
        g.stat_type ≠ "Assist" ∧ sh.stat_type ≠ "Assist") := by
  constructor
  · intro a ap ha hblank hnone _hne hfind
    have hakey : ap.player_key = a := by
      have h := List.find?_some hfind
      exact beq_iff_eq.mp h
    have h1 : (a != "") = true := bne_iff_ne.mpr hblank
    have h2 : (a != "None") = true := bne_iff_ne.mpr hnone
    simp only [lcDerive, hpr, hstat, ha, h1, h2, Option.some_bind, hfind,
      beq_self_eq_true, Bool.and_self, Bool.and_true, Bool.true_and, if_true]
    norm_num
    exact ⟨_, _, _, ⟨rfl, rfl, rfl⟩, rfl, rfl, rfl, rfl, rfl, rfl, hakey⟩
  · intro ha
    simp only [lcDerive, hpr, hstat, ha, beq_self_eq_true, if_true]
    norm_num
    exact ⟨_, _, ⟨rfl, rfl⟩, rfl, rfl, rfl, rfl, rfl, by simp, by simp⟩

/-- A concrete Lacrosse Goal submission naming an assister. -/
def lcSubW : LcSubmission :=
  { player_key := "#1 Al Ace", stat_type := "Goal", assist := some "#2 Bo Bay",
    on_target := none, faceoff_result := none, penalty_minutes := none,
    minutes := none, notes := "", timestamp := "t0" }

/-- A concrete Lacrosse Goal submission with assist "None". -/
def lcSubW2 : LcSubmission :=
  { player_key := "#1 Al Ace", stat_type := "Goal", assist := some "None",
    on_target := none, faceoff_result := none, penalty_minutes := none,
    minutes := none, notes := "", timestamp := "t0" }

/-- Witness: C3 applied to a Goal with an assister and a Goal without. -/
theorem C3_witness :
    (∃ g sh asr : Event, lcDerive rosterW lcSubW = some [g, sh, asr] ∧
      g.stat_type = "Goal" ∧ g.player_key = lcSubW.player_key ∧
      sh.stat_type = "Shot" ∧ sh.player_key = lcSubW.player_key ∧
      sh.on_target = CellVal.num 1 ∧
      asr.stat_type = "Assist" ∧ asr.player_key = "#2 Bo Bay") ∧
    (∃ g sh : Event, lcDerive rosterW lcSubW2 = some [g, sh] ∧
      g.stat_type = "Goal" ∧ g.player_key = lcSubW2.player_key ∧
      sh.stat_type = "Shot" ∧ sh.player_key = lcSubW2.player_key ∧
      sh.on_target = CellVal.num 1 ∧
      g.stat_type ≠ "Assist" ∧ sh.stat_type ≠ "Assist") :=
  ⟨(C3_lacrosse_goal_expansion rosterW lcSubW playerW1 (by decide) rfl).1
      "#2 Bo Bay" playerW2 rfl (by decide) (by decide) (by decide) (by decide),
   (C3_lacrosse_goal_expansion rosterW lcSubW2 playerW1 (by decide) rfl).2 rfl⟩

/-- C6: Empty-log tolerance — every sport's aggregation returns an empty
totals table on an empty log and on a log holding only other sports'
events, and the inherited Baseball/Basketball stub returns an empty table
for every log, all without failing. -/
theorem C6_empty_log_tolerance (logs : List Event) :
    footballAggregateTotals [] = [] ∧
    soccerAggregateTotals [] = [] ∧
    lacrosseAggregateTotals [] = [] ∧
    ((∀ e ∈ logs, e.sport ≠ "Football") → footballAggregateTotals logs = []) ∧
    ((∀ e ∈ logs, e.sport ≠ "Soccer") → soccerAggregateTotals logs = []) ∧
    ((∀ e ∈ logs, e.sport ≠ "Lacrosse") → lacrosseAggregateTotals logs = []) ∧
    sportSpecAggregateTotals logs = [] ∧
    baseballAggregateTotals logs = [] ∧
    basketballAggregateTotals logs = [] := by
  refine ⟨rfl, rfl, rfl, ?_, ?_, ?_, rfl, rfl, rfl⟩
  · intro h
    have hnil : logs.filter (fun e => e.sport == "Football") = [] := by
      rw [List.filter_eq_nil_iff]
      intro e he
      simpa using h e he
    simp [footballAggregateTotals, hnil, aggCore]
  · intro h
    have hnil : logs.filter (fun e => e.sport == "Soccer") = [] := by
      rw [List.filter_eq_nil_iff]
      intro e he
      simpa using h e he
    simp [soccerAggregateTotals, hnil, aggCore]
  · intro h
    have hnil : logs.filter (fun e => e.sport == "Lacrosse") = [] := by
      rw [List.filter_eq_nil_iff]
      intro e he
      simpa using h e he
    simp [lacrosseAggregateTotals, hnil, aggCore]

/-- A concrete Soccer event used for sport-mismatch witnesses. -/
def eventSoccerW : Event :=
  { timestamp := "t0", sport := "Soccer", player_key := "#1 Al Ace",
    first_name := "Al", last_name := "Ace", number := some 1,
    positions := "F", side := "All", stat_type := "Save", outcome := none,
    yards := .na, touchdown := .na, on_target := .na, goal := .na,
    card := none, penalty_minutes := .na, minutes := .na, notes := "" }

/-- A concrete Football event used for sport-mismatch witnesses. -/
def eventFootballW : Event :=
  { timestamp := "t0", sport := "Football", player_key := "#1 Al Ace",
    first_name := "Al", last_name := "Ace", number := some 1,
    positions := "QB", side := "Defense", stat_type := "Sack",
    outcome := none, yards := .na, touchdown := .num 0, on_target := .na,
    goal := .na, card := none, penalty_minutes := .na, minutes := .na,
    notes := "" }

/-- Witness: C6 applied to a Soccer-only log for Football and a
Football-only log for Soccer and Lacrosse. -/
theorem C6_witness :
    footballAggregateTotals [eventSoccerW] = [] ∧
    soccerAggregateTotals [eventFootballW] = [] ∧
    lacrosseAggregateTotals [eventFootballW] = [] ∧
    baseballAggregateTotals [eventFootballW] = [] :=
  ⟨(C6_empty_log_tolerance [eventSoccerW]).2.2.2.1 (by decide),
   (C6_empty_log_tolerance [eventFootballW]).2.2.2.2.1 (by decide),
   (C6_empty_log_tolerance [eventFootballW]).2.2.2.2.2.1 (by decide),
   (C6_empty_log_tolerance [eventFootballW]).2.2.2.2.2.2.2.1⟩

/-- C4: Division-by-zero guards — in every aggregation output row, each
ratio column (Soccer Pass Completion %; Lacrosse Faceoff %, Save %, GAA,
Shooting %, SOG Rate %) is exactly 0 whenever its denominator is 0; the
ratios are total functions, so no error or NaN can arise. -/
theorem C4_ratio_zero_guards (logs : List Event) :
    (∀ r ∈ soccerAggregateTotals logs,
      r.passes_attempted = 0 → r.pass_completion_pct = 0) ∧
    (∀ r ∈ lacrosseAggregateTotals logs,
      (r.faceoffs_attempted = 0 → r.faceoff_pct = 0) ∧
      (r.shots_on_goal_faced = 0 → r.save_pct = 0) ∧
      (r.minutes = 0 → r.gaa = 0) ∧
      (r.shots_on_goal = 0 → r.shooting_pct = 0) ∧
      (r.shots = 0 → r.sog_rate_pct = 0)) := by
  constructor
  · intro r hr
    obtain ⟨k, hk⟩ := mem_aggCore hr
    subst hk
    intro hpa
    simp only [scRow] at hpa ⊢
    rw [if_pos hpa]
  · intro r hr
    obtain ⟨k, hk⟩ := mem_aggCore hr
    subst hk
    refine ⟨?_, ?_, ?_, ?_, ?_⟩
    · intro h
      simp only [lcRow] at h ⊢
      rw [if_pos h]
    · intro h
      simp only [lcRow] at h ⊢
      rw [if_pos h]
    · intro h
      simp only [lcRow] at h ⊢
      rw [h]
      simp
    · intro h
      simp only [lcRow] at h ⊢
      rw [if_pos h]
    · intro h
      simp only [lcRow] at h ⊢
      rw [if_pos h]

/-- A concrete Lacrosse event (a Ground Ball: every ratio denominator 0). -/
def eventLacrosseW : Event :=
  { timestamp := "t0", sport := "Lacrosse", player_key := "#1 Al Ace",
    first_name := "Al", last_name := "Ace", number := some 1,
    positions := "M", side := "All", stat_type := "Ground Ball",
    outcome := none, yards := .na, touchdown := .na, on_target := .na,
    goal := .na, card := none, penalty_minutes := .na, minutes := .na,
    notes := "" }

/-- Witness: C4 applied to one-event logs whose single rows have zero
denominators in every guarded ratio. -/
theorem C4_witness :
    (scRow "#1 Al Ace" [scNormalize eventSoccerW]).pass_completion_pct = 0 ∧
    (lcRow "#1 Al Ace" [lcNormalize eventLacrosseW]).faceoff_pct = 0 ∧
    (lcRow "#1 Al Ace" [lcNormalize eventLacrosseW]).save_pct = 0 ∧
    (lcRow "#1 Al Ace" [lcNormalize eventLacrosseW]).gaa = 0 ∧
    (lcRow "#1 Al Ace" [lcNormalize eventLacrosseW]).shooting_pct = 0 ∧
    (lcRow "#1 Al Ace" [lcNormalize eventLacrosseW]).sog_rate_pct = 0 :=
  ⟨(C4_ratio_zero_guards [eventSoccerW]).1 _ (by decide) (by decide),
   ((C4_ratio_zero_guards [eventLacrosseW]).2 _ (by decide)).1 (by decide),
   ((C4_ratio_zero_guards [eventLacrosseW]).2 _ (by decide)).2.1 (by decide),
   ((C4_ratio_zero_guards [eventLacrosseW]).2 _ (by decide)).2.2.1 (by decide),
   ((C4_ratio_zero_guards [eventLacrosseW]).2 _ (by decide)).2.2.2.1 (by decide),
   ((C4_ratio_zero_guards [eventLacrosseW]).2 _ (by decide)).2.2.2.2 (by decide)⟩

theorem filter_filter_and {α : Type} (p q : α → Bool) (l : List α) :
    (l.filter p).filter q = l.filter (fun a => p a && q a) := by
  induction l with
  | nil => rfl
  | cons a as ih =>
    by_cases hp : p a <;> by_cases hq : q a <;>
      simp [List.filter_cons, hp, hq, ih]

/-- C5: Football totals formulas — in every output row, FG Attempt Yards
(Total) sums yards over all Field Goal events regardless of outcome,
Defensive TDs counts Interception/Return events with touchdown = 1,
Touchdowns (Total) is Receiving + Rushing + Passing + Defensive TDs, and
Pass Yards / Passing TDs are restricted to completed passes. -/
theorem C5_football_totals_formulas (logs : List Event) (r : FootballRow)
    (hr : r ∈ footballAggregateTotals logs) :
    r.fg_attempt_yards = specFGAttemptYards logs r.player_key ∧
    r.defensive_tds = specDefensiveTDs logs r.player_key ∧
    r.touchdowns_total = specReceivingTDs logs r.player_key +
      specRushingTDs logs r.player_key + specPassingTDs logs r.player_key +
      specDefensiveTDs logs r.player_key ∧
    r.pass_yards = specPassYards logs r.player_key ∧
    r.passing_tds = specPassingTDs logs r.player_key := by
  obtain ⟨k, hk⟩ := mem_aggCore hr
  subst hk
  refine ⟨rfl, ?_, ?_, ?_, ?_⟩
  · simp only [fbRow, specDefensiveTDs, fbPlayerEvents,
      List.countP_eq_length_filter]
  · simp only [fbRow, specReceivingTDs, specRushingTDs, specPassingTDs,
      specDefensiveTDs, fbPlayerEvents, List.countP_eq_length_filter,
      filter_filter_and, Bool.and_assoc]
  · simp only [fbRow, specPassYards, fbPlayerEvents, filter_filter_and,
      Bool.and_assoc]
  · simp only [fbRow, specPassingTDs, fbPlayerEvents,
      List.countP_eq_length_filter, filter_filter_and, Bool.and_assoc]

/-- The Football totals row of a one-event log, a concrete C5 instance. -/
def fbRowW : FootballRow := fbRow "#1 Al Ace" [fbNormalize eventFootballW]

/-- Witness: C5 applied to a concrete one-event Football log. -/
theorem C5_witness :
    fbRowW.fg_attempt_yards = specFGAttemptYards [eventFootballW] fbRowW.player_key ∧
    fbRowW.defensive_tds = specDefensiveTDs [eventFootballW] fbRowW.player_key ∧
    fbRowW.touchdowns_total = specReceivingTDs [eventFootballW] fbRowW.player_key +
      specRushingTDs [eventFootballW] fbRowW.player_key +
      specPassingTDs [eventFootballW] fbRowW.player_key +
      specDefensiveTDs [eventFootballW] fbRowW.player_key ∧
    fbRowW.pass_yards = specPassYards [eventFootballW] fbRowW.player_key ∧
    fbRowW.passing_tds = specPassingTDs [eventFootballW] fbRowW.player_key :=
  C5_football_totals_formulas [eventFootballW] fbRowW (by decide)

/-- A Football Run event whose player key collides with `eventC7b` but
whose identity columns differ. -/
def eventC7a : Event :=
  { timestamp := "t1", sport := "Football", player_key := "#1 X",
    first_name := "Al", last_name := "Ace", number := some 1,
    positions := "RB", side := "Offense", stat_type := "Run",
    outcome := none, yards := .num 5, touchdown := .num 0, on_target := .na,
    goal := .na, card := none, penalty_minutes := .na, minutes := .na,
    notes := "" }

/-- A Football Run event sharing `eventC7a`'s player key under a
different last name. -/
def eventC7b : Event :=
  { timestamp := "t2", sport := "Football", player_key := "#1 X",
    first_name := "Al", last_name := "Zed", number := some 1,
    positions := "RB", side := "Offense", stat_type := "Run",
    outcome := none, yards := .num 7, touchdown := .num 0, on_target := .na,
    goal := .na, card := none, penalty_minutes := .na, minutes := .na,
    notes := "" }

/-- Counterexample to C7 as stated: permuting a log in which two events
share a player key but disagree on the identity columns changes the
aggregation output (the grouped row copies identity fields from whichever
event comes first). -/
theorem C7_counterexample :
    List.Perm [eventC7b, eventC7a] [eventC7a, eventC7b] ∧
    footballAggregateTotals [eventC7b, eventC7a] ≠
      footballAggregateTotals [eventC7a, eventC7b] :=
  ⟨List.Perm.swap eventC7a eventC7b [], by decide⟩

/-- C7 (amended): permuting the event log leaves every sport's
aggregation output unchanged — rows, values, and row order — provided all
events that share a player key agree on the identity columns (first name,
last name, number, positions), which every roster-derived log satisfies. -/
theorem C7_order_independence_of_totals (l l' : List Event)
    (hp : List.Perm l' l) (hid : idAgree l) :
    footballAggregateTotals l' = footballAggregateTotals l ∧
    soccerAggregateTotals l' = soccerAggregateTotals l ∧
    lacrosseAggregateTotals l' = lacrosseAggregateTotals l := by
  have hid' : idAgree l' := fun a ha b hb hk =>
    hid a (hp.mem_iff.mp ha) b (hp.mem_iff.mp hb) hk
  exact ⟨footballAgg_eq_of_perm hp hid', soccerAgg_eq_of_perm hp hid',
    lacrosseAgg_eq_of_perm hp hid'⟩

/-- A second Football event (distinct player) for permutation witnesses. -/
def eventFootballW2 : Event :=
  { timestamp := "t1", sport := "Football", player_key := "#2 Bo Bay",
    first_name := "Bo", last_name := "Bay", number := some 2,
    positions := "WR", side := "Offense", stat_type := "Reception",
    outcome := none, yards := .num 12, touchdown := .num 1, on_target := .na,
    goal := .na, card := none, penalty_minutes := .na, minutes := .na,
    notes := "" }

/-- Witness: the amended C7 applied to a concrete two-event log and its
swap. -/
theorem C7_witness :
    footballAggregateTotals [eventFootballW2, eventFootballW] =
      footballAggregateTotals [eventFootballW, eventFootballW2] ∧
    soccerAggregateTotals [eventFootballW2, eventFootballW] =
      soccerAggregateTotals [eventFootballW, eventFootballW2] ∧
    lacrosseAggregateTotals [eventFootballW2, eventFootballW] =
      lacrosseAggregateTotals [eventFootballW, eventFootballW2] :=
  C7_order_independence_of_totals [eventFootballW, eventFootballW2]
    [eventFootballW2, eventFootballW]
    (List.Perm.swap eventFootballW eventFootballW2 [])
    (by unfold idAgree; decide)

/-- C9: Numeric coercion never raises — a missing or unparseable numeric
attribute coerces to 0 before summing, so replacing every such attribute
of any event by a literal 0 leaves every sport's aggregation output
unchanged; the aggregations are total functions of the log. -/
theorem C9_numeric_coercion_to_zero (v : CellVal) (l₁ l₂ : List Event)
    (e : Event) :
    (isBadNum v = true → toNumCoerce v = 0) ∧
    footballAggregateTotals (l₁ ++ e :: l₂) =
      footballAggregateTotals (l₁ ++ coerceBadToZero e :: l₂) ∧
    soccerAggregateTotals (l₁ ++ e :: l₂) =
      soccerAggregateTotals (l₁ ++ coerceBadToZero e :: l₂) ∧
    lacrosseAggregateTotals (l₁ ++ e :: l₂) =
      lacrosseAggregateTotals (l₁ ++ coerceBadToZero e :: l₂) := by
  refine ⟨toNumCoerce_eq_zero_of_bad, ?_, ?_, ?_⟩
  · unfold footballAggregateTotals
    exact congrArg (aggCore (fun e => e.player_key) fbRow fbRowLe)
      (filterMap_middle_subst (fun x => x.sport == "Football") fbNormalize e
        (coerceBadToZero e) rfl (fbNormalize_coerceBad e).symm l₁ l₂)
  · unfold soccerAggregateTotals
    exact congrArg (aggCore (fun e => e.player_key) scRow scRowLe)
      (filterMap_middle_subst (fun x => x.sport == "Soccer") scNormalize e
        (coerceBadToZero e) rfl (scNormalize_coerceBad e).symm l₁ l₂)
  · unfold lacrosseAggregateTotals
    exact congrArg (aggCore (fun e => e.player_key) lcRow lcRowLe)
      (filterMap_middle_subst (fun x => x.sport == "Lacrosse") lcNormalize e
        (coerceBadToZero e) rfl (lcNormalize_coerceBad e).symm l₁ l₂)

/-- A Football event whose yards cell holds an unparseable string. -/
def eventBadW : Event :=
  { timestamp := "t0", sport := "Football", player_key := "#1 Al Ace",
    first_name := "Al", last_name := "Ace", number := some 1,
    positions := "RB", side := "Offense", stat_type := "Run",
    outcome := none, yards := .str "abc", touchdown := .na, on_target := .na,
    goal := .na, card := none, penalty_minutes := .na, minutes := .na,
    notes := "" }

/-- Witness: C9 applied to an unparseable string cell and a concrete
one-event log around it. -/
theorem C9_witness :
    toNumCoerce (CellVal.str "abc") = 0 ∧
    footballAggregateTotals ([] ++ eventBadW :: []) =
      footballAggregateTotals ([] ++ coerceBadToZero eventBadW :: []) ∧
    soccerAggregateTotals ([] ++ eventBadW :: []) =
      soccerAggregateTotals ([] ++ coerceBadToZero eventBadW :: []) :=
  ⟨(C9_numeric_coercion_to_zero (CellVal.str "abc") [] [] eventBadW).1 (by decide),
   (C9_numeric_coercion_to_zero (CellVal.str "abc") [] [] eventBadW).2.1,
   (C9_numeric_coercion_to_zero (CellVal.str "abc") [] [] eventBadW).2.2.1⟩

/-- Spec reading of the jersey cell of one export row. -/
def exportJerseyVal (jcol : String) (r : List (String × CellVal)) : String :=
  coerce_str_no_nan (rowGet r jcol)

/-- Spec reading of one included field of one export row: the mapped
sheet column's value, empty when no mapping resolves. -/
def exportFieldVal (rm : List (String × String)) (r : List (String × CellVal))
    (f : String) : String :=
  match List.lookup f rm with
  | some c => coerce_str_no_nan (rowGet r c)
  | none => ""

/-- Spec omission rule: a data row is emitted iff its jersey value is
non-empty and at least one included field value is non-empty. -/
def exportKeepRow (rm : List (String × String)) (included : List String)
    (jcol : String) (r : List (String × CellVal)) : Bool :=
  exportJerseyVal jcol r != "" &&
    included.any (fun f => exportFieldVal rm r f != "")

/-- Spec rendering of a kept row: jersey value first, then one value per
included field, pipe-joined. -/
def exportRenderRow (rm : List (String × String)) (included : List String)
    (jcol : String) (r : List (String × CellVal)) : String :=
  pyJoin "|" (exportJerseyVal jcol r :: included.map (exportFieldVal rm r))

theorem exportDataLines_eq_filter_map (rm : List (String × String))
    (included : List String) (jcol : String)
    (rows : List (List (String × CellVal))) :
    exportDataLines rm included jcol rows =
      (rows.filter (exportKeepRow rm included jcol)).map
        (exportRenderRow rm included jcol) := by
  induction rows with
  | nil => rfl
  | cons r rs ih =>
    by_cases hj : coerce_str_no_nan (rowGet r jcol) = ""
    · simp [exportDataLines, List.filter_cons, exportKeepRow, exportJerseyVal,
        hj, ih]
    · by_cases ha : ∃ x ∈ included,
          ¬(match List.lookup x rm with
            | some c => coerce_str_no_nan (rowGet r c)
            | none => "") = ""
      · simp only [exportDataLines, List.filter_cons, exportKeepRow,
          exportJerseyVal, exportRenderRow, hj, ih, List.tail_cons]
        simp [exportFieldVal, hj, ha, List.any_map, Function.comp]
        rfl
      · simp only [exportDataLines, List.filter_cons, exportKeepRow,
          exportJerseyVal, exportRenderRow, hj, ih, List.tail_cons]
        simp [exportFieldVal, hj, ha, List.any_map, Function.comp]

/-- C8: MaxPreps export format — whenever `build_maxpreps_txt` succeeds,
the text starts with the literal supplier constant as its first line and
ends with a trailing newline; the data lines are exactly the rows whose
jersey value is non-empty and whose included field values are not all
empty, rendered in order; and a whole number renders without a decimal
point (42.0 prints as "42"). -/
theorem C8_maxpreps_txt_format (df : Table) (field_map : List (String × String))
    (jname txt : String)
    (h : build_maxpreps_txt df field_map jname = Except.ok txt) :
    (∃ rest, txt = "669ae75f-4563-494a-8c17-370aaa8539d4" ++ "\n" ++ rest) ∧
    (∃ pre, txt = pre ++ "\n") ∧
    exportDataLines (buildReverseMap df.cols field_map)
        (choose_fields_to_include df field_map)
        (resolveColumnNameCI df.cols jname) df.rows =
      (df.rows.filter (exportKeepRow (buildReverseMap df.cols field_map)
          (choose_fields_to_include df field_map)
          (resolveColumnNameCI df.cols jname))).map
        (exportRenderRow (buildReverseMap df.cols field_map)
          (choose_fields_to_include df field_map)
          (resolveColumnNameCI df.cols jname)) ∧
    (∀ q : ℚ, q.den = 1 → coerce_str_no_nan (.num q) = toString q.num) ∧
    coerce_str_no_nan (.num (42 : ℚ)) = "42" := by
  simp only [build_maxpreps_txt] at h
  split at h
  case isFalse => exact absurd h (by simp)
  case isTrue hcols =>
    have htxt : txt = pyJoin "\n" (supplierId :: pyJoin "|"
        ("Jersey" :: choose_fields_to_include df field_map) ::
        exportDataLines (buildReverseMap df.cols field_map)
          (choose_fields_to_include df field_map)
          (resolveColumnNameCI df.cols jname) df.rows) ++ "\n" := by
      exact (Except.ok.injEq _ _).mp h.symm
    refine ⟨?_, ⟨_, htxt⟩, exportDataLines_eq_filter_map _ _ _ _, ?_, ?_⟩
    · refine ⟨pyJoin "\n" (pyJoin "|"
        ("Jersey" :: choose_fields_to_include df field_map) ::
        exportDataLines (buildReverseMap df.cols field_map)
          (choose_fields_to_include df field_map)
          (resolveColumnNameCI df.cols jname) df.rows) ++ "\n", ?_⟩
      rw [htxt]
      simp only [pyJoin, supplierId, String.append_assoc]
    · intro q hq
      simp [coerce_str_no_nan, hq]
    · decide

/-- A concrete two-row totals table: one exportable row, one with a blank
jersey. -/
def tableW : Table :=
  { cols := ["Jersey", "Rush Att", "Rush Yds"],
    rows := [[("Jersey", .str "12"), ("Rush Att", .num 5), ("Rush Yds", .num 42)],
             [("Jersey", .str ""), ("Rush Att", .num 3), ("Rush Yds", .num 12)]] }

/-- A concrete sheet-column → MaxPreps-field mapping. -/
def fmapW : List (String × String) :=
  [("Jersey", "Jersey"), ("Rush Att", "RushingNum"), ("Rush Yds", "RushingYards")]

/-- The text `build_maxpreps_txt` produces for the concrete table. -/
def txtW : String :=
  "669ae75f-4563-494a-8c17-370aaa8539d4\nJersey|RushingNum|RushingYards\n12|5|42\n"

/-- Witness: C8 applied to the concrete table, mapping, and jersey column. -/
theorem C8_witness :
    (∃ rest, txtW = "669ae75f-4563-494a-8c17-370aaa8539d4" ++ "\n" ++ rest) ∧
    (∃ pre, txtW = pre ++ "\n") ∧
    exportDataLines (buildReverseMap tableW.cols fmapW)
        (choose_fields_to_include tableW fmapW)
        (resolveColumnNameCI tableW.cols "Jersey") tableW.rows =
      (tableW.rows.filter (exportKeepRow (buildReverseMap tableW.cols fmapW)
          (choose_fields_to_include tableW fmapW)
          (resolveColumnNameCI tableW.cols "Jersey"))).map
        (exportRenderRow (buildReverseMap tableW.cols fmapW)
          (choose_fields_to_include tableW fmapW)
          (resolveColumnNameCI tableW.cols "Jersey")) ∧
    (∀ q : ℚ, q.den = 1 → coerce_str_no_nan (.num q) = toString q.num) ∧
    coerce_str_no_nan (.num (42 : ℚ)) = "42" :=
  C8_maxpreps_txt_format tableW fmapW "Jersey" txtW (by rfl)
